import Mathlib

/-!
Shallow embedding of src/cogs/poker.py (the Texas Hold em session engine:
PokerPlayer and PokerGame).

Modelling conventions:
  - Decimal money amounts are modelled as exact rationals.  Every amount the
    engine manipulates (buy-in, blind = buy_in / 100, bets) stays far below
    the 28-significant-digit default Decimal context, so Decimal arithmetic
    on them is exact and agrees with rational arithmetic.
  - Discord user objects are reduced to their numeric id (user_object.id),
    which is the only part of them the engine logic reads; display names are
    used by the source only inside chat messages.
  - A Python dict keyed by user id is an association list in insertion
    order.  Iterating a dict yields its keys, exactly as in Python; that
    detail matters because PokerGame.num_folded iterates self.players and
    subscripts the resulting int keys.
  - Each ctx.send call site is modelled as a structured Event value; the
    exact message text is irrelevant to the engine state, except where a
    format operation itself raises (the raise branch of try_move builds a
    message with the malformed format spec 2.f inside braces, which raises
    ValueError before the send and before any mutation).
  - Python exceptions are modelled with PyError.  A statement sequence that
    can raise returns the state reached so far together with an optional
    error, because Python keeps mutations performed before the raise.
  - Fields of the source kept out of the model because nothing in the engine
    logic ever reads them back: currency (message rendering only),
    _time_started (wall clock, used only by attempt_cancel, itself broken by
    a NameError on the bare name host), side_pots (written once, never
    read).
-/

/- Rational arithmetic is made unfoldable again so that closed instances of
the embedded engine evaluate inside decide and rfl proofs; this changes no
statement, only the reducibility of the arithmetic. -/
attribute [local semireducible] Rat.add Rat.mul Rat.sub Rat.inv

/-- Python exceptions the embedded code can raise, tagged with a short
descriptor of the CPython message. -/
inductive PyError where
  | attributeError (attr : String)
  | typeError (msg : String)
  | valueError (msg : String)
  | keyError (key : Nat)
  | indexError
  | zeroDivisionError
  | loopLimit
deriving DecidableEq

/-- One structured notification per ctx.send call site of the source. -/
inductive Event where
  | cannotJoinMidGame
  | alreadyInGame (pid : Nat)
  | joined (pid : Nat)
  | cannotStartMidRound
  | hostMustStart
  | notEnoughPlayers
  | gameScreen (dealer sb bb turnp : Nat)
  | notParticipant
  | notYourTurn
  | pointlessFold
  | cannotCheck (bet : ℚ)
  | mustGoAllIn
  | folded (pid : Nat)
  | checked (pid : Nat)
  | called (pid : Nat)
  | wentAllIn (pid : Nat) (amt : ℚ)
  | foldWinner (pid : Nat) (amt : ℚ)
  | skipped (pid : Nat) (status : String)
deriving DecidableEq

def SUITS : List String := ["H", "S", "C", "D"]

def NUMBERS : List String :=
  ["2", "3", "4", "5", "6", "7", "8", "9", "10", "J", "Q", "K", "A"]

/-- A card is a (suit, number) pair, as in the source tuples. -/
abbrev Card := String × String

/-- DECK is number-major, suit-minor, matching the comprehension
for number in NUMBERS for suit in SUITS. -/
def DECK : List Card := NUMBERS.flatMap (fun n => SUITS.map (fun s => (s, n)))

def STATUS_IN : String := "in"
def STATUS_ALL_IN : String := "all in"
def STATUS_FOLDED : String := "folded"

def MOVE_FOLD : String := "pk_fold"
def MOVE_CHECK : String := "pk_check"
def MOVE_CALL : String := "pk_call"
def MOVE_RAISE : String := "pk_raise"
def MOVE_ALL_IN : String := "pk_all_in"

def ROUND_STAGES : List Nat := [0, 3, 4, 5]

/-- PokerPlayer: id is user_object.id, amount is the stack, amount_in the
chips committed this round, status one of the STATUS strings. -/
structure PokerPlayer where
  id : Nat
  amount : ℚ
  amount_in : ℚ
  status : String
deriving DecidableEq

/-- PokerPlayer.__init__(user_object, amount). -/
def PokerPlayer.init (uid : Nat) (amount : ℚ) : PokerPlayer :=
  { id := uid, amount := amount, amount_in := 0, status := STATUS_IN }

/-- PokerPlayer.move_in: amount decreases and amount_in increases by the
argument; the source performs no check at all (the TODO at line 71). -/
def PokerPlayer.move_in (p : PokerPlayer) (a : ℚ) : PokerPlayer :=
  { p with amount := p.amount - a, amount_in := p.amount_in + a }

/-- PokerGame state (PokerGame.__init__).  See the header comment for the
fields of the source that are omitted because nothing ever reads them. -/
structure PokerGame where
  host : Nat
  round : Nat
  round_limit : Nat
  buy_in : ℚ
  ongoing_game : Bool
  ongoing_round : Bool
  blind : ℚ
  deck : List Card
  in_play : List (Option Card)
  players : List (Nat × PokerPlayer)
  players_order : List Nat
  dealer : Nat
  small_blind : Nat
  big_blind : Nat
  starting_player : Int
  turn : Int
  bet : ℚ
  pot : ℚ
deriving DecidableEq

/-- PokerGame.__init__(currency, host, round_limit, buy_in). -/
def PokerGame.init (host : Nat) (round_limit : Nat) (buy_in : ℚ) : PokerGame :=
  { host := host, round := 1, round_limit := round_limit, buy_in := buy_in,
    ongoing_game := false, ongoing_round := false,
    blind := buy_in / 100,
    deck := DECK,
    in_play := [none, none, none, none, none],
    players := [],
    players_order := [host],
    dealer := 0, small_blind := 1, big_blind := 2,
    starting_player := -1, turn := -1,
    bet := 0, pot := 0 }

/-- Lookup in a dict modelled as an association list (first binding wins,
as a Python dict holds one binding per key). -/
def dictGet (ps : List (Nat × PokerPlayer)) (k : Nat) : Option PokerPlayer :=
  match ps with
  | [] => none
  | (k2, v) :: rest => if k2 = k then some v else dictGet rest k

/-- In-place mutation of the player object stored under a key, as the source
does through the _turn_player / blind-seat properties. -/
def updatePlayer (ps : List (Nat × PokerPlayer)) (k : Nat)
    (f : PokerPlayer → PokerPlayer) : List (Nat × PokerPlayer) :=
  ps.map (fun kp => if kp.1 = k then (kp.1, f kp.2) else kp)

/-- Python modulo: raises ZeroDivisionError on a zero modulus; for the
positive moduli used here, Int.emod agrees with Python. -/
def pymod (a b : Int) : Except PyError Int :=
  if b = 0 then .error .zeroDivisionError else .ok (a % b)

/-- self.players[self.players_order[i]]: IndexError when the seat index is
out of range, then KeyError when the seated id has no player record. -/
def PokerGame.playerAt (g : PokerGame) (i : Nat) : Except PyError PokerPlayer :=
  match g.players_order[i]? with
  | none => .error .indexError
  | some pid =>
    match dictGet g.players pid with
    | none => .error (.keyError pid)
    | some p => .ok p

/-- The _turn_player property: players[players_order[turn % len(players_order)]]. -/
def PokerGame._turn_player (g : PokerGame) : Except PyError PokerPlayer :=
  match pymod g.turn (g.players_order.length : Int) with
  | .error e => .error e
  | .ok i => g.playerAt i.toNat

/-- The num_folded property.  The comprehension at line 102 iterates
self.players, which yields the dict KEYS (ints), and subscripts them with
p, so it raises TypeError as soon as the dict is non-empty; an empty dict
gives an empty comprehension and the value 0. -/
def PokerGame.num_folded (g : PokerGame) : Except PyError Nat :=
  match g.players with
  | [] => .ok 0
  | _ => .error (.typeError "int is not subscriptable")

/-- Python list.index: ValueError when the value does not occur. -/
def listIndex (l : List Nat) (x : Nat) : Except PyError Nat :=
  match l with
  | [] => .error (.valueError "is not in list")
  | y :: rest =>
    if y = x then .ok 0
    else
      match listIndex rest x with
      | .error e => .error e
      | .ok i => .ok (i + 1)

/-- The stage property (lines 104-108): it takes the index in ROUND_STAGES
of the number of EMPTY board slots, len of the comprehension over cards
that are None. -/
def PokerGame.stage (g : PokerGame) : Except PyError Nat :=
  listIndex ROUND_STAGES (g.in_play.filter (fun c => c.isNone)).length

/-- _get_fold_winner (lines 127-133).  It first reads num_folded, which
raises unless the dict is empty; past that, the for loop iterates the dict
keys and calls get_status on them — a method neither int nor PokerPlayer
has — so any non-empty dict would raise AttributeError there; the empty
dict falls out of the loop and returns None. -/
def PokerGame._get_fold_winner (g : PokerGame) : Except PyError (Option PokerPlayer) :=
  match g.num_folded with
  | .error e => .error e
  | .ok nf =>
    if nf < g.players_order.length - 1 then .ok none
    else
      match g.players with
      | [] => .ok none
      | _ => .error (.attributeError "get_status")

/-- _print_game_screen (lines 135-167): builds the board message.  The card
grid and move list never raise; the format arguments are evaluated left to
right, so the dealer, small-blind, big-blind and turn player lookups can
raise in that order.  On success one gameScreen event is sent. -/
def PokerGame._print_game_screen (g : PokerGame) : List Event × Option PyError :=
  match g.playerAt g.dealer with
  | .error e => ([], some e)
  | .ok d =>
    match g.playerAt g.small_blind with
    | .error e => ([], some e)
    | .ok s =>
      match g.playerAt g.big_blind with
      | .error e => ([], some e)
      | .ok b =>
        match g._turn_player with
        | .error e => ([], some e)
        | .ok t => ([Event.gameScreen d.id s.id b.id t.id], none)

/-- The while loop of _advance_turn (lines 249-253): skip folded and all-in
seats, advancing turn each time.  The fuel bound is never reached: the loop
is entered only when _get_fold_winner returned None, which requires the
players dict to be empty, and then the very first _turn_player evaluation
raises (KeyError, or ZeroDivisionError on an empty seating order). -/
def advanceLoop : Nat → PokerGame → List Event → PokerGame × List Event × Option PyError
  | 0, g, evs => (g, evs, some PyError.loopLimit)
  | n + 1, g, evs =>
    match g._turn_player with
    | .error e => (g, evs, some e)
    | .ok p =>
      if p.status = STATUS_FOLDED ∨ p.status = STATUS_ALL_IN then
        advanceLoop n { g with turn := g.turn + 1 } (evs ++ [Event.skipped p.id p.status])
      else (g, evs, none)

/-- _advance_turn (lines 237-257).  The source calls _get_fold_winner twice
(test and message); the property is pure, so one evaluation is shared.  The
winner branch only sends the message built from self.pot and returns: no
chips move, no flag changes.  Otherwise turn += 1, the skip loop runs, and
the game screen is printed. -/
def PokerGame._advance_turn (g : PokerGame) : PokerGame × List Event × Option PyError :=
  match g._get_fold_winner with
  | .error e => (g, [], some e)
  | .ok (some w) => (g, [Event.foldWinner w.id g.pot], none)
  | .ok none =>
    match advanceLoop (g.players_order.length + 1) { g with turn := g.turn + 1 } [] with
    | (g2, evs, some e) => (g2, evs, some e)
    | (g2, evs, none) =>
      match g2._print_game_screen with
      | (evs2, err) => (g2, evs ++ evs2, err)

/-- PokerGame.join (lines 182-202): rejected while ongoing_game is set or
when the id already has a player record; otherwise a PokerPlayer at the
buy-in stack is added to the dict and the id appended to players_order. -/
def PokerGame.join (g : PokerGame) (author : Nat) : PokerGame × List Event × Option PyError :=
  if g.ongoing_game then (g, [Event.cannotJoinMidGame], none)
  else if (dictGet g.players author).isSome then (g, [Event.alreadyInGame author], none)
  else
    ({ g with players := g.players ++ [(author, PokerPlayer.init author g.buy_in)],
              players_order := g.players_order ++ [author] },
     [Event.joined author], none)

/-- One blind commitment of start: the seat property lookup
players[players_order[seat]] followed by move_in on that player object. -/
def commitSeat (g : PokerGame) (seat : Nat) (amt : ℚ) : PokerGame × Option PyError :=
  match g.players_order[seat]? with
  | none => (g, some .indexError)
  | some pid =>
    match dictGet g.players pid with
    | none => (g, some (.keyError pid))
    | some _ => ({ g with players := updatePlayer g.players pid (fun p => p.move_in amt) }, none)

/-- The message sent by the player-count branch of start. -/
def startEvents (g : PokerGame) : List Event :=
  if g.players_order.length < 3 then [Event.notEnoughPlayers] else []

/-- The assignments to bet and turn at lines 229-231: bet becomes the blind
and turn becomes (big_blind + 1) % len(players_order).  This point of start
is reached only after both blind-seat lookups succeeded, so the order holds
at least 3 seats and the modulus is positive. -/
def startTurn (g2 : PokerGame) : PokerGame :=
  { g2 with bet := g2.blind,
            turn := ((g2.big_blind : Int) + 1) % (g2.players_order.length : Int) }

/-- PokerGame.start (lines 204-235).  The first two rejections return; the
player-count branch at lines 217-220 only SENDS its message — the source
has no return there — so execution falls through and the round is started
regardless.  Then ongoing_game and ongoing_round are set, the small blind
commits blind / 2, the big blind commits blind, bet and turn are assigned,
and the game screen is printed. -/
def PokerGame.start (g : PokerGame) (author : Nat) : PokerGame × List Event × Option PyError :=
  if g.ongoing_round then (g, [Event.cannotStartMidRound], none)
  else if author ≠ g.host then (g, [Event.hostMustStart], none)
  else
    match commitSeat { g with ongoing_game := true, ongoing_round := true }
        g.small_blind (g.blind / 2) with
    | (g1, some e) => (g1, startEvents g, some e)
    | (g1, none) =>
      match commitSeat g1 g1.big_blind g1.blind with
      | (g2, some e) => (g2, startEvents g, some e)
      | (g2, none) =>
        match (startTurn g2)._print_game_screen with
        | (evs2, err) => (startTurn g2, startEvents g ++ evs2, err)

/-- PokerGame.try_move (lines 259-328) as the source actually executes: the
first statement reads self.game, but PokerGame.__init__ never sets a game
attribute (that field lives on the Poker cog object), so attribute lookup
raises AttributeError before any validation or mutation. -/
def PokerGame.try_move (g : PokerGame) (_author : Nat) (_move : String)
    (_amount : Option ℚ) : PokerGame × List Event × Option PyError :=
  (g, [], some (PyError.attributeError "game"))

/-- Tail of each accepted move branch: the shared _advance_turn call at
line 328, with the branch message prepended to the events it produces. -/
def finishMove (g : PokerGame) (evs : List Event) : PokerGame × List Event × Option PyError :=
  match g._advance_turn with
  | (g2, evs2, err) => (g2, evs ++ evs2, err)

/-- The all-in branch mutation at lines 325-326: move_in of the whole
remaining stack (read before the call), then the status flip. -/
def setAllIn (p : PokerPlayer) : PokerPlayer :=
  { p.move_in p.amount with status := STATUS_ALL_IN }

/-- Lines 279-328 of try_move: the guards and branches after the
call-to-check rebinding, taking the already-resolved turn player.
Faithful points: a check is refused whenever bet is positive; a call or
raise is refused with the all-in message when bet is GREATER OR EQUAL to
the acting player stack plus committed; the call branch moves in the FULL
bet (not bet minus committed); the raise branch raises from its malformed
announcement format (spec 2.f inside braces) before bet is assigned, a
ValueError for a Decimal amount and a TypeError when amount is None (None
rejects the earlier .2f spec); the all-in branch moves in the whole
remaining stack and flips the status; a move string outside the five
constants matches no branch and falls through to _advance_turn. -/
def pastFoldGuard (g : PokerGame) (tp : PokerPlayer) (move : String)
    (amount : Option ℚ) : PokerGame × List Event × Option PyError :=
  if 0 < g.bet ∧ move = MOVE_CHECK then (g, [Event.cannotCheck g.bet], none)
  else if tp.amount + tp.amount_in ≤ g.bet ∧ (move = MOVE_CALL ∨ move = MOVE_RAISE) then
    (g, [Event.mustGoAllIn], none)
  else if move = MOVE_FOLD then
    finishMove
      { g with players := updatePlayer g.players tp.id (fun p => { p with status := STATUS_FOLDED }) }
      [Event.folded tp.id]
  else if move = MOVE_CHECK then finishMove g [Event.checked tp.id]
  else if move = MOVE_CALL then
    finishMove
      { g with players := updatePlayer g.players tp.id (fun p => p.move_in g.bet) }
      [Event.called tp.id]
  else if move = MOVE_RAISE then
    match amount with
    | none => (g, [], some (.typeError "unsupported format string passed to NoneType"))
    | some _ => (g, [], some (.valueError "Format specifier missing precision"))
  else if move = MOVE_ALL_IN then
    finishMove
      { g with players := updatePlayer g.players tp.id setAllIn }
      [Event.wentAllIn tp.id tp.amount]
  else finishMove g []

/-- Lines 264-328 of try_move: the validation and move branches that the
statements after the broken guard at line 260 would execute.  Kept as a
separate definition because the guard raises first on the real code path;
the claims about specific line ranges inside try_move are settled against
this body.  The participant check is membership of players_order; the turn
check compares ids of the _turn_player property (which can itself raise);
fold is refused at bet 0; a call at bet 0 is rebound to a check before the
remaining guards of pastFoldGuard. -/
def PokerGame.try_move_after_guard (g : PokerGame) (author : Nat) (move : String)
    (amount : Option ℚ) : PokerGame × List Event × Option PyError :=
  if author ∉ g.players_order then (g, [Event.notParticipant], none)
  else
    match g._turn_player with
    | .error e => (g, [], some e)
    | .ok tp =>
      if author ≠ tp.id then (g, [Event.notYourTurn], none)
      else if g.bet = 0 ∧ move = MOVE_FOLD then (g, [Event.pointlessFold], none)
      else
        pastFoldGuard g tp (if g.bet = 0 ∧ move = MOVE_CALL then MOVE_CHECK else move) amount

/-- One engine operation, as dispatched by the command layer. -/
inductive GameOp where
  | joinO (author : Nat)
  | startO (author : Nat)
  | moveO (author : Nat) (move : String) (amount : Option ℚ)

/-- The state reached after an operation: Python keeps whatever mutations
happened before a return or a raise. -/
def PokerGame.applyOp (g : PokerGame) : GameOp → PokerGame
  | .joinO a => (g.join a).1
  | .startO a => (g.start a).1
  | .moveO a m amt => (g.try_move a m amt).1

/-- An in-round action: the blind commitments of start, or a move. -/
inductive RoundAction where
  | startA (author : Nat)
  | moveA (author : Nat) (move : String) (amount : Option ℚ)

def PokerGame.applyRound (g : PokerGame) : RoundAction → PokerGame
  | .startA a => (g.start a).1
  | .moveA a m amt => (g.try_move a m amt).1

/-- Sum over the players dict of stack plus committed chips. -/
def committedSum (ps : List (Nat × PokerPlayer)) : ℚ :=
  (ps.map (fun kp => kp.2.amount + kp.2.amount_in)).sum

/-- The conserved quantity of the chip-conservation property. -/
def totalChips (g : PokerGame) : ℚ := committedSum g.players + g.pot

/-- A session begun with host id 0, 3 rounds, buy-in 20 (the command
defaults of poker_begin). -/
def demoGame : PokerGame := PokerGame.init 0 3 20

/-- The host joins the session, then players 1 and 2 join. -/
def demoJoined : PokerGame := ((((demoGame.join 0).1.join 1).1.join 2).1)

/-- The round after a fully successful start: the blinds are committed
(seat order [0, 0, 1, 2], so the host is dealer and small blind), bet is
the blind 1/5, and it is player 2 to act. -/
def demoStarted : PokerGame := (demoJoined.start 0).1

/-- Two joiners but the host never joined: seat order [0, 1, 2] with only
two player records. -/
def demoNoHostJoin : PokerGame := ((demoGame.join 1).1.join 2).1

/-- demoStarted with the bet doubled to 2/5 and the turn on the big blind
(seat index 2 is id 1, who has committed 1/5). -/
def gCall : PokerGame := { demoStarted with bet := 2/5, turn := 2 }

/-- demoStarted with bet 0 (a fresh-stage table). -/
def gBetZero : PokerGame := { demoStarted with bet := 0 }

/-- demoStarted with the turn on the big blind (id 1), whose committed
amount 1/5 equals the table bet 1/5. -/
def gBigBlindTurn : PokerGame := { demoStarted with turn := 2 }

/-- demoStarted with the turn on the big blind and the bet raised to 20,
exactly the big blind stack 99/5 plus committed 1/5. -/
def gExactStack : PokerGame := { demoStarted with turn := 2, bet := 20 }

/-- A player record flipped to folded, as the fold branch does. -/
def setFolded (p : PokerPlayer) : PokerPlayer := { p with status := STATUS_FOLDED }

/-- Four players joined (seat order [0, 1, 2, 3, 4] with the host seated
but recordless) of whom 2, 3 and 4 have folded: the win-by-fold scenario
of the spec with a single non-folded player record. -/
def gFoldScenario : PokerGame :=
  let g := ((((demoGame.join 1).1.join 2).1.join 3).1.join 4).1
  { g with players :=
      updatePlayer (updatePlayer (updatePlayer g.players 2 setFolded) 3 setFolded) 4 setFolded }

/-! Helper lemmas: frame and conservation facts used by the claim
theorems. -/

theorem committedSum_cons (kp : Nat × PokerPlayer) (rest : List (Nat × PokerPlayer)) :
    committedSum (kp :: rest) = (kp.2.amount + kp.2.amount_in) + committedSum rest := by
  simp [committedSum]

theorem committedSum_updatePlayer (ps : List (Nat × PokerPlayer)) (k : Nat)
    (f : PokerPlayer → PokerPlayer)
    (hf : ∀ p, (f p).amount + (f p).amount_in = p.amount + p.amount_in) :
    committedSum (updatePlayer ps k f) = committedSum ps := by
  induction ps with
  | nil => rfl
  | cons kp rest ih =>
    show committedSum ((if kp.1 = k then (kp.1, f kp.2) else kp) :: updatePlayer rest k f)
      = committedSum (kp :: rest)
    rw [committedSum_cons, committedSum_cons, ih]
    by_cases h : kp.1 = k
    · rw [if_pos h]
      exact congrArg (fun x => x + committedSum rest) (hf kp.2)
    · rw [if_neg h]

theorem advanceLoop_frame (n : Nat) : ∀ (g : PokerGame) (evs : List Event),
    (advanceLoop n g evs).1.players = g.players ∧ (advanceLoop n g evs).1.pot = g.pot := by
  induction n with
  | zero => intro g evs; exact ⟨rfl, rfl⟩
  | succ n ih =>
    intro g evs
    simp only [advanceLoop]
    split
    · exact ⟨rfl, rfl⟩
    · split
      · exact ih _ _
      · exact ⟨rfl, rfl⟩

theorem advance_turn_frame (g : PokerGame) :
    (g._advance_turn).1.players = g.players ∧ (g._advance_turn).1.pot = g.pot := by
  simp only [PokerGame._advance_turn]
  split
  · exact ⟨rfl, rfl⟩
  · exact ⟨rfl, rfl⟩
  · split
    · next g2 evs e h =>
      have h2 := advanceLoop_frame (g.players_order.length + 1) { g with turn := g.turn + 1 } []
      rw [h] at h2
      exact h2
    · next g2 evs h =>
      have h2 := advanceLoop_frame (g.players_order.length + 1) { g with turn := g.turn + 1 } []
      rw [h] at h2
      exact h2

theorem finishMove_frame (g : PokerGame) (evs : List Event) :
    (finishMove g evs).1.players = g.players ∧ (finishMove g evs).1.pot = g.pot :=
  advance_turn_frame g

theorem commitSeat_chips (g : PokerGame) (s : Nat) (a : ℚ) :
    (commitSeat g s a).1.pot = g.pot ∧
      committedSum (commitSeat g s a).1.players = committedSum g.players := by
  simp only [commitSeat]
  split
  · exact ⟨rfl, rfl⟩
  · split
    · exact ⟨rfl, rfl⟩
    · refine ⟨rfl, ?_⟩
      show committedSum (updatePlayer g.players _ (fun q => q.move_in a))
        = committedSum g.players
      refine committedSum_updatePlayer _ _ _ ?_
      intro q
      simp only [PokerPlayer.move_in]
      ring

theorem start_chips (g : PokerGame) (a : Nat) :
    (g.start a).1.pot = g.pot ∧
      committedSum (g.start a).1.players = committedSum g.players := by
  simp only [PokerGame.start]
  split
  · exact ⟨rfl, rfl⟩
  split
  · exact ⟨rfl, rfl⟩
  · split
    · next g1 e h =>
      have h1 := commitSeat_chips { g with ongoing_game := true, ongoing_round := true }
        g.small_blind (g.blind / 2)
      rw [h] at h1
      exact h1
    · next g1 h =>
      have h1 := commitSeat_chips { g with ongoing_game := true, ongoing_round := true }
        g.small_blind (g.blind / 2)
      rw [h] at h1
      split
      · next g2 e h2 =>
        have hb := commitSeat_chips g1 g1.big_blind g1.blind
        rw [h2] at hb
        exact ⟨hb.1.trans h1.1, hb.2.trans h1.2⟩
      · next g2 h2 =>
        have hb := commitSeat_chips g1 g1.big_blind g1.blind
        rw [h2] at hb
        exact ⟨hb.1.trans h1.1, hb.2.trans h1.2⟩

theorem join_pot (g : PokerGame) (a : Nat) : (g.join a).1.pot = g.pot := by
  simp only [PokerGame.join]
  split
  · rfl
  · split
    · rfl
    · rfl

theorem pastFoldGuard_chips (g : PokerGame) (tp : PokerPlayer) (move : String)
    (amount : Option ℚ) :
    (pastFoldGuard g tp move amount).1.pot = g.pot ∧
      committedSum (pastFoldGuard g tp move amount).1.players = committedSum g.players := by
  simp only [pastFoldGuard]
  split
  · exact ⟨rfl, rfl⟩
  split
  · exact ⟨rfl, rfl⟩
  split
  · have h := finishMove_frame
      { g with players := updatePlayer g.players tp.id (fun p => { p with status := STATUS_FOLDED }) }
      [Event.folded tp.id]
    refine ⟨h.2, ?_⟩
    rw [h.1]
    show committedSum (updatePlayer g.players tp.id (fun p => { p with status := STATUS_FOLDED }))
      = committedSum g.players
    exact committedSum_updatePlayer _ _ _ (fun p => rfl)
  split
  · have h := finishMove_frame g [Event.checked tp.id]
    exact ⟨h.2, by rw [h.1]⟩
  split
  · have h := finishMove_frame
      { g with players := updatePlayer g.players tp.id (fun p => p.move_in g.bet) }
      [Event.called tp.id]
    refine ⟨h.2, ?_⟩
    rw [h.1]
    show committedSum (updatePlayer g.players tp.id (fun p => p.move_in g.bet))
      = committedSum g.players
    refine committedSum_updatePlayer _ _ _ ?_
    intro p
    simp only [PokerPlayer.move_in]
    ring
  split
  · split
    · exact ⟨rfl, rfl⟩
    · exact ⟨rfl, rfl⟩
  split
  · have h := finishMove_frame
      { g with players := updatePlayer g.players tp.id setAllIn }
      [Event.wentAllIn tp.id tp.amount]
    refine ⟨h.2, ?_⟩
    rw [h.1]
    show committedSum (updatePlayer g.players tp.id setAllIn) = committedSum g.players
    refine committedSum_updatePlayer _ _ _ ?_
    intro p
    simp only [setAllIn, PokerPlayer.move_in]
    ring
  · have h := finishMove_frame g []
    exact ⟨h.2, by rw [h.1]⟩

theorem after_guard_chips (g : PokerGame) (a : Nat) (move : String) (amount : Option ℚ) :
    (g.try_move_after_guard a move amount).1.pot = g.pot ∧
      committedSum (g.try_move_after_guard a move amount).1.players =
        committedSum g.players := by
  simp only [PokerGame.try_move_after_guard]
  split
  · exact ⟨rfl, rfl⟩
  · split
    · exact ⟨rfl, rfl⟩
    · split
      · exact ⟨rfl, rfl⟩
      split
      · exact ⟨rfl, rfl⟩
      · exact pastFoldGuard_chips _ _ _ _

theorem after_guard_totalChips (g : PokerGame) (a : Nat) (move : String) (amount : Option ℚ) :
    totalChips (g.try_move_after_guard a move amount).1 = totalChips g := by
  have h := after_guard_chips g a move amount
  simp only [totalChips, h.1, h.2]

theorem applyRound_totalChips (g : PokerGame) (act : RoundAction) :
    totalChips (g.applyRound act) = totalChips g := by
  cases act with
  | startA a =>
    have h := start_chips g a
    simp only [PokerGame.applyRound, totalChips, h.1, h.2]
  | moveA a m amt => rfl

theorem applyOp_pot (g : PokerGame) (op : GameOp) : (g.applyOp op).pot = g.pot := by
  cases op with
  | joinO a => exact join_pot g a
  | startO a => exact (start_chips g a).1
  | moveO a m amt => rfl

theorem foldlRound_totalChips (acts : List RoundAction) : ∀ g : PokerGame,
    totalChips (acts.foldl PokerGame.applyRound g) = totalChips g := by
  induction acts with
  | nil => intro g; rfl
  | cons act rest ih =>
    intro g
    rw [List.foldl_cons, ih, applyRound_totalChips]

theorem foldlOp_pot (ops : List GameOp) : ∀ g : PokerGame,
    (ops.foldl PokerGame.applyOp g).pot = g.pot := by
  induction ops with
  | nil => intro g; rfl
  | cons op rest ih =>
    intro g
    rw [List.foldl_cons, ih, applyOp_pot]

/-! Claim theorems. -/

/-- C1: the claim says an accepted raise by r at table bet b yields new bet
b + r with the raiser committed at exactly b + r.  On the code no raise can
be accepted: try_move raises AttributeError on self.game before anything
else, and even the post-guard branch body raises ValueError from the
malformed announcement format spec before the bet assignment, leaving the
demo bet at 1/5 and moving no chips. -/
theorem claim_C1 :
    demoStarted.try_move 2 MOVE_RAISE (some 1) =
        (demoStarted, [], some (PyError.attributeError "game"))
      ∧ demoStarted.try_move_after_guard 2 MOVE_RAISE (some 1) =
        (demoStarted, [], some (PyError.valueError "Format specifier missing precision"))
      ∧ demoStarted.bet = 1/5 := by
  refine ⟨rfl, by decide, by decide⟩

/-- C2: chip conservation.  Over any sequence of in-round actions (the
blind commitments of start, and try_move calls) the sum over the players
dict of stack plus committed plus the pot never changes; the same holds
pointwise for the post-guard move body, whose fold, check, call, raise and
all-in branches all conserve the total. -/
theorem claim_C2 :
    (∀ (g : PokerGame) (acts : List RoundAction),
        totalChips (acts.foldl PokerGame.applyRound g) = totalChips g)
      ∧ ∀ (g : PokerGame) (a : Nat) (m : String) (amt : Option ℚ),
          totalChips (g.try_move_after_guard a m amt).1 = totalChips g :=
  ⟨fun g acts => foldlRound_totalChips acts g,
   fun g a m amt => after_guard_totalChips g a m amt⟩

/-- C3: the claim says start with fewer than 3 seated players fails with
NotEnoughPlayers and leaves the game state entirely unchanged.  The code
sends the message but has no return there, so it sets ongoing_game and
ongoing_round to true and then raises IndexError looking up seat 1 of the
single-seat order. -/
theorem claim_C3 :
    demoGame.players_order.length < 3
      ∧ (demoGame.start 0).2.1 = [Event.notEnoughPlayers]
      ∧ (demoGame.start 0).1.ongoing_game = true
      ∧ (demoGame.start 0).1.ongoing_round = true
      ∧ (demoGame.start 0).2.2 = some PyError.indexError := by
  refine ⟨by decide, by decide, by decide, by decide, by decide⟩

/-- C4: the claim says an accepted call at a positive bet commits exactly
bet minus the already-committed amount, and a call at bet 0 equals a check.
The aliasing half is in the code (a call at bet 0 is rebound to a check),
but no call is ever accepted (try_move raises AttributeError first), and
the post-guard call branch moves in the FULL bet: the big blind calling a
bet of 2/5 with 1/5 already committed ends at 3/5 committed, not at the
bet. -/
theorem claim_C4 :
    gCall.try_move 1 MOVE_CALL none = (gCall, [], some (PyError.attributeError "game"))
      ∧ gCall.bet = 2/5
      ∧ (dictGet gCall.players 1).map PokerPlayer.amount_in = some (1/5)
      ∧ (dictGet (gCall.try_move_after_guard 1 MOVE_CALL none).1.players 1).map
          PokerPlayer.amount_in = some (3/5)
      ∧ (3/5 : ℚ) ≠ gCall.bet
      ∧ gBetZero.try_move_after_guard 2 MOVE_CALL none
          = gBetZero.try_move_after_guard 2 MOVE_CHECK none := by
  refine ⟨rfl, by decide, by decide, by decide, by decide, by decide⟩

/-- C5: the claim says a check is accepted exactly when the bet is 0 or the
acting player has already matched it, and otherwise rejected with
CannotCheck.  On the code no check is ever accepted (try_move raises
AttributeError on self.game first), and the post-guard body rejects every
check at a positive bet, including the big blind whose committed 1/5
equals the bet. -/
theorem claim_C5 :
    gBigBlindTurn.try_move 1 MOVE_CHECK none
        = (gBigBlindTurn, [], some (PyError.attributeError "game"))
      ∧ (dictGet gBigBlindTurn.players 1).map PokerPlayer.amount_in
          = some gBigBlindTurn.bet
      ∧ gBigBlindTurn.try_move_after_guard 1 MOVE_CHECK none
          = (gBigBlindTurn, [Event.cannotCheck (1/5)], none) := by
  refine ⟨rfl, by decide, by decide⟩

/-- C6: the claim says that once all but one player has folded, the last
non-folded player is awarded the whole pot and the round ends.  The code
cannot run this path: num_folded iterates the players dict, getting int
keys, and subscripts them, raising TypeError as soon as any player exists,
so _advance_turn raises instead of detecting the winner; the winner branch
itself would only send a message (the pot, remaining 0, is never moved and
no flag is reset); and every move raises AttributeError at the try_move
guard before reaching _advance_turn at all. -/
theorem claim_C6 :
    gFoldScenario.num_folded = Except.error (PyError.typeError "int is not subscriptable")
      ∧ gFoldScenario._get_fold_winner
          = Except.error (PyError.typeError "int is not subscriptable")
      ∧ gFoldScenario._advance_turn
          = (gFoldScenario, [], some (PyError.typeError "int is not subscriptable"))
      ∧ gFoldScenario.try_move 1 MOVE_FOLD none
          = (gFoldScenario, [], some (PyError.attributeError "game"))
      ∧ gFoldScenario.pot = 0 :=
  ⟨rfl, rfl, rfl, rfl, rfl⟩

/-- Board with three cards dealt (a flop). -/
def boardFlop : List (Option Card) :=
  [some ("H", "2"), some ("S", "2"), some ("C", "2"), none, none]

/-- Board with four cards dealt (a turn). -/
def boardTurn : List (Option Card) :=
  [some ("H", "2"), some ("S", "2"), some ("C", "2"), some ("D", "2"), none]

/-- Board with all five cards dealt (a river). -/
def boardRiver : List (Option Card) :=
  [some ("H", "2"), some ("S", "2"), some ("C", "2"), some ("D", "2"), some ("H", "3")]

/-- C7: the claim says the stage maps 0 filled slots to 0 (pre-flop), 3 to
1, 4 to 2 and 5 to 3, and that a fresh game is at stage 0.  The code takes
the ROUND_STAGES index of the count of EMPTY slots, so a fresh game (all 5
slots empty) is reported at stage 3 (river), a 3-card or 4-card board
raises ValueError from list.index, and only a full board gives 0. -/
theorem claim_C7 :
    demoGame.stage = Except.ok 3
      ∧ ({ demoGame with in_play := boardFlop } : PokerGame).stage
          = Except.error (PyError.valueError "is not in list")
      ∧ ({ demoGame with in_play := boardTurn } : PokerGame).stage
          = Except.error (PyError.valueError "is not in list")
      ∧ ({ demoGame with in_play := boardRiver } : PokerGame).stage = Except.ok 0 :=
  ⟨rfl, rfl, rfl, rfl⟩

/-- C8: the claim says a call or raise is rejected with MustGoAllIn exactly
when stack plus committed is strictly below the bet.  On the code every
call or raise raises AttributeError at the try_move guard; and the
post-guard funds test uses greater-or-equal, so the big blind whose stack
plus committed EQUALS the bet of 20 is still rejected with the all-in
message, where the claim requires acceptance. -/
theorem claim_C8 :
    gExactStack.try_move 1 MOVE_CALL none
        = (gExactStack, [], some (PyError.attributeError "game"))
      ∧ (dictGet gExactStack.players 1).map (fun p => p.amount + p.amount_in)
          = some gExactStack.bet
      ∧ gExactStack.try_move_after_guard 1 MOVE_CALL none
          = (gExactStack, [Event.mustGoAllIn], none) := by
  refine ⟨rfl, by decide, by decide⟩

/-- C9: the pot field is never written by any engine operation: it is 0 at
creation and stays 0 under every sequence of join, start and move calls;
each single operation, and the post-guard move body as well, leaves pot
untouched. -/
theorem claim_C9 :
    (∀ (h rl : Nat) (bi : ℚ) (ops : List GameOp),
        (ops.foldl PokerGame.applyOp (PokerGame.init h rl bi)).pot = 0)
      ∧ (∀ (g : PokerGame) (op : GameOp), (g.applyOp op).pot = g.pot)
      ∧ ∀ (g : PokerGame) (a : Nat) (m : String) (amt : Option ℚ),
          (g.try_move_after_guard a m amt).1.pot = g.pot :=
  ⟨fun h rl bi ops => by rw [foldlOp_pot]; rfl, fun g op => applyOp_pot g op,
   fun g a m amt => (after_guard_chips g a m amt).1⟩

/-- C10: at creation the host id is seated in players_order but has no
record in the players dict; the host therefore counts toward the 3-player
minimum of start (two joiners besides the host already pass the length
check while only two records exist, and start then raises KeyError on the
recordless host at the dealer lookup); and once the host separately joins,
every id in players_order has a player record. -/
theorem claim_C10 :
    (∀ (h rl : Nat) (bi : ℚ),
        (PokerGame.init h rl bi).players_order = [h]
          ∧ (PokerGame.init h rl bi).players = []
          ∧ (((PokerGame.init h rl bi).join h).1.players_order.all
              (fun pid => (dictGet ((PokerGame.init h rl bi).join h).1.players pid).isSome))
            = true)
      ∧ demoNoHostJoin.players_order.length = 3
      ∧ demoNoHostJoin.players.length = 2
      ∧ dictGet demoNoHostJoin.players demoNoHostJoin.host = none
      ∧ Event.notEnoughPlayers ∉ (demoNoHostJoin.start 0).2.1
      ∧ (demoNoHostJoin.start 0).2.2 = some (PyError.keyError 0) := by
  refine ⟨?_, by decide, by decide, by decide, by decide, by decide⟩
  intro h rl bi
  refine ⟨rfl, rfl, ?_⟩
  show ([h, h].all fun pid => (dictGet [(h, PokerPlayer.init h bi)] pid).isSome) = true
  simp [dictGet]
